import Mathlib

/-!
Verification of the spreadsheet-backed ERP application (`ERP.py`).

The embedding models the two tables ("Transactions", "Projects") as lists of
records, the string-to-typed coercion pipeline (`pd.to_numeric(errors='coerce')
.fillna(0)`, `pd.to_datetime(errors='coerce')`), the dashboard KPI sums, the
monthly grouped series, the per-project profitability view, and the
row-addressed update/delete operations against the raw sheet
(lists of string rows).
-/

namespace ERP

/-- A calendar date, the typed result of parsing a `YYYY-MM-DD` cell. -/
structure Date where
  year : Nat
  month : Nat
  day : Nat
deriving DecidableEq, Repr

/-- The numeric value of a decimal digit character, `none` otherwise. -/
def charDigit (c : Char) : Option Nat :=
  if '0' ≤ c ∧ c ≤ '9' then some (c.toNat - '0'.toNat) else none

/-- Decimal value of a digit string, `none` on any non-digit. -/
def natOfDigits : List Char → Nat → Option Nat
  | [], acc => some acc
  | c :: cs, acc =>
    match charDigit c with
    | some d => natOfDigits cs (acc * 10 + d)
    | none => none

/-- Parse a non-empty all-digit string as a natural number. -/
def parseNat (cs : List Char) : Option Nat :=
  if cs.isEmpty then none else natOfDigits cs 0

/-- Model of `pd.to_numeric(x, errors='coerce')` on a raw cell, restricted to
integer-valued amounts: an optionally signed digit string parses, anything
else (e.g. "abc") yields `none` (NaN). -/
def toNumericCoerce (s : String) : Option Int :=
  match s.toList with
  | '-' :: rest => (parseNat rest).map (fun n => -(n : Int))
  | cs => (parseNat cs).map (fun n => (n : Int))

/-- Split a character list at every `'-'`. -/
def splitDash : List Char → List Char → List (List Char)
  | [], cur => [cur.reverse]
  | c :: cs, cur =>
    if c = '-' then cur.reverse :: splitDash cs [] else splitDash cs (c :: cur)

/-- Model of `pd.to_datetime(x, errors='coerce')` on a raw cell, restricted to
the `YYYY-MM-DD` wire format the application writes: an unparseable string
(e.g. "not-a-date") yields `none` (NaT). -/
def toDatetimeCoerce (s : String) : Option Date :=
  match splitDash s.toList [] with
  | [y, m, d] =>
    match parseNat y, parseNat m, parseNat d with
    | some yn, some mn, some dn =>
      if 1 ≤ mn ∧ mn ≤ 12 ∧ 1 ≤ dn ∧ dn ≤ 31 then some ⟨yn, mn, dn⟩ else none
    | _, _, _ => none
  | _ => none

/-- `timedelta(days=1)` successor on calendar dates. -/
def nextDay (d : Date) : Date :=
  let dim : Nat :=
    if d.month = 2 then
      (if (d.year % 4 = 0 ∧ d.year % 100 ≠ 0) ∨ d.year % 400 = 0 then 29 else 28)
    else if d.month = 4 ∨ d.month = 6 ∨ d.month = 9 ∨ d.month = 11 then 30
    else 31
  if d.day < dim then ⟨d.year, d.month, d.day + 1⟩
  else if d.month < 12 then ⟨d.year, d.month + 1, 1⟩
  else ⟨d.year + 1, 1, 1⟩

/-- `d + timedelta(days=n)`. -/
def addDays : Date → Nat → Date
  | d, 0 => d
  | d, n + 1 => addDays (nextDay d) n

/-- A raw Transactions data row as read from the sheet
(`date, type, category, amount, note, project_name, created_at`), all strings. -/
structure RawTrans where
  date : String
  type : String
  category : String
  amount : String
  note : String
  project_name : String
  created_at : String
deriving DecidableEq, Repr

/-- The typed view of a transaction after coercion
(`df_trans` after the `資料轉型` block). -/
structure Trans where
  date : Option Date
  type : String
  category : String
  amount : Int
  note : String
  project_name : String
  created_at : String
deriving DecidableEq, Repr

/-- Coercion of one transaction row:
`amount = to_numeric(amount, errors='coerce').fillna(0)`,
`date = to_datetime(date, errors='coerce')`; other columns untouched. -/
def coerceTrans (r : RawTrans) : Trans :=
  { date := toDatetimeCoerce r.date
    type := r.type
    category := r.category
    amount := (toNumericCoerce r.amount).getD 0
    note := r.note
    project_name := r.project_name
    created_at := r.created_at }

/-- The typed Transactions table derived from the raw data rows. -/
def coerceTransTable (rs : List RawTrans) : List Trans := rs.map coerceTrans

/-- A raw Projects data row
(`name, total_budget, start_date, status, progress, created_at, end_date`). -/
structure RawProj where
  name : String
  total_budget : String
  start_date : String
  status : String
  progress : String
  created_at : String
  end_date : String
deriving DecidableEq, Repr

/-- The typed view of a project after coercion (`df_projs` after `資料轉型`). -/
structure Proj where
  name : String
  total_budget : Int
  start_date : Option Date
  status : String
  progress : Int
  created_at : String
  end_date : Option Date
deriving DecidableEq, Repr

/-- Coercion of one project row. `end_date` is
`to_datetime(end_date, errors='coerce').fillna(start_date + timedelta(days=30))`:
a parse failure falls back to the (typed) start date plus 30 days, which is
itself NaT when the start date did not parse. -/
def coerceProj (r : RawProj) : Proj :=
  { name := r.name
    total_budget := (toNumericCoerce r.total_budget).getD 0
    start_date := toDatetimeCoerce r.start_date
    status := r.status
    progress := (toNumericCoerce r.progress).getD 0
    created_at := r.created_at
    end_date :=
      match toDatetimeCoerce r.end_date with
      | some d => some d
      | none => (toDatetimeCoerce r.start_date).map (fun s => addDays s 30) }

/-- Sum of the `amount` column (`['amount'].sum()`). -/
def sumAmount (l : List Trans) : Int := (l.map (fun t => t.amount)).sum

/-- `mask_month`: the date is non-null and shares year and month with `now`;
on a NaT date both `.dt.year` and `.dt.month` comparisons are false. -/
def inMonth (t : Trans) (now : Date) : Bool :=
  match t.date with
  | some d => decide (d.year = now.year ∧ d.month = now.month)
  | none => false

/-- `m_income`: sum of amounts of current-month rows with `type == '收入'`
(0 for the empty table, per the `if not df_trans.empty` guard). -/
def m_income (df : List Trans) (now : Date) : Int :=
  if df.isEmpty then 0
  else sumAmount ((df.filter (fun t => inMonth t now)).filter
    (fun t => decide (t.type = "收入")))

/-- `m_expense`: sum of amounts of current-month rows with `type == '支出'`. -/
def m_expense (df : List Trans) (now : Date) : Int :=
  if df.isEmpty then 0
  else sumAmount ((df.filter (fun t => inMonth t now)).filter
    (fun t => decide (t.type = "支出")))

/-- `m_balance = m_income - m_expense`. -/
def m_balance (df : List Trans) (now : Date) : Int :=
  m_income df now - m_expense df now

/-- `total_balance`: all-time income sum minus all-time expense sum over the
unfiltered table. -/
def total_balance (df : List Trans) : Int :=
  if df.isEmpty then 0
  else sumAmount (df.filter (fun t => decide (t.type = "收入"))) -
    sumAmount (df.filter (fun t => decide (t.type = "支出")))

/-- `%02d` zero-padding of the month for `strftime('%Y-%m')`. -/
def pad2 (n : Nat) : String := if n < 10 then "0" ++ toString n else toString n

/-- `%Y` zero-padding of the year to four digits for `strftime('%Y-%m')`. -/
def pad4 (n : Nat) : String :=
  if n < 10 then "000" ++ toString n
  else if n < 100 then "00" ++ toString n
  else if n < 1000 then "0" ++ toString n
  else toString n

/-- `date.strftime('%Y-%m')`: the zero-padded month grouping key. -/
def monthKey (d : Date) : String := pad4 d.year ++ "-" ++ pad2 d.month

/-- The `Month` column of `df_chart`: the grouping key of a transaction, or
`none` when its date is NaT (such rows are dropped by `groupby`). -/
def keyOf (t : Trans) : Option String := t.date.map monthKey

/-- The ascending list of distinct month keys present in the table:
`groupby` sorts the group keys (strings, lexicographically) and keeps each
once; NaT-dated rows contribute no key. -/
def monthKeysSorted (df : List Trans) : List String :=
  List.insertionSort (· ≤ ·) (df.filterMap keyOf).dedup

/-- One row of `monthly_stats`: month key, income sum, expense sum, the net
`收入 - 支出`, and the `Cumulative` running balance. -/
structure MonthRow where
  month : String
  income : Int
  expense : Int
  net : Int
  cumulative : Int
deriving DecidableEq, Repr

/-- Income sum of the month group `k`: `unstack(fill_value=0)` makes this 0
when the month has no income row. -/
def monthIncome (df : List Trans) (k : String) : Int :=
  sumAmount ((df.filter (fun t => decide (keyOf t = some k))).filter
    (fun t => decide (t.type = "收入")))

/-- Expense sum of the month group `k`. -/
def monthExpense (df : List Trans) (k : String) : Int :=
  sumAmount ((df.filter (fun t => decide (keyOf t = some k))).filter
    (fun t => decide (t.type = "支出")))

/-- Running sums: `runningSums acc [x1, x2, ...] = [acc+x1, acc+x1+x2, ...]`
(the `cumsum` of the net column). -/
def runningSums : Int → List Int → List Int
  | _, [] => []
  | acc, x :: xs => (acc + x) :: runningSums (acc + x) xs

/-- The rows of `monthly_stats`, walking the ascending key list while carrying
the running cumulative balance (the `cumsum` accumulator). -/
def statsRows (df : List Trans) : Int → List String → List MonthRow
  | _, [] => []
  | acc, k :: ks =>
    { month := k, income := monthIncome df k, expense := monthExpense df k,
      net := monthIncome df k - monthExpense df k,
      cumulative := acc + (monthIncome df k - monthExpense df k) } ::
      statsRows df (acc + (monthIncome df k - monthExpense df k)) ks

/-- `monthly_stats`: for each month key in ascending order, the income and
expense sums, their difference `收入 - 支出`, and the cumulative sum of the
differences starting from 0. -/
def monthly_stats (df : List Trans) : List MonthRow :=
  statsRows df 0 (monthKeysSorted df)

/-- `p_cost` for one project name: expense sum of the transactions whose
`project_name` equals it exactly (0 for the empty table, per the
`if not df_trans.empty` guard). -/
def p_cost (trans : List Trans) (name : String) : Int :=
  if trans.isEmpty then 0
  else sumAmount ((trans.filter (fun t => decide (t.project_name = name))).filter
    (fun t => decide (t.type = "支出")))

/-- `p_rev` for one project name: the corresponding income sum. -/
def p_rev (trans : List Trans) (name : String) : Int :=
  if trans.isEmpty then 0
  else sumAmount ((trans.filter (fun t => decide (t.project_name = name))).filter
    (fun t => decide (t.type = "收入")))

/-- One entry of the `proj_view` list: project name, `已投入` (cost) and
`獲利` (profit `p_rev - p_cost`). -/
structure ProjView where
  name : String
  invested : Int
  profit : Int
deriving DecidableEq, Repr

/-- `proj_view`: built by iterating `df_projs.iterrows()` in table order,
one entry per project row. -/
def proj_view (projs : List Proj) (trans : List Trans) : List ProjView :=
  projs.map (fun p =>
    { name := p.name
      invested := p_cost trans p.name
      profit := p_rev trans p.name - p_cost trans p.name })

/-- The `opts` dictionary of the 報表修改 tab as an ordered list of
(label, physical row) pairs: `{f"Row {i+1}: {r[0]} | ${r[3]}": i+1
for i, r in enumerate(raw_trans) if i>0}`. Rows are raw sheet rows
(header at list index 0). -/
def opts (raw : List (List String)) : List (String × Nat) :=
  (raw.enum.filter (fun p => decide (p.1 > 0))).map
    (fun p => ("Row " ++ toString (p.1 + 1) ++ ": " ++ (p.2.getD 0 "") ++
      " | $" ++ (p.2.getD 3 ""), p.1 + 1))

/-- The `proj_opts` dictionary of the 專案管理 tab, same addressing scheme:
`{f"Row {i+1}: {r[0]}": i+1 for i, r in enumerate(raw_projs) if i>0}`. -/
def proj_opts (raw : List (List String)) : List (String × Nat) :=
  (raw.enum.filter (fun p => decide (p.1 > 0))).map
    (fun p => ("Row " ++ toString (p.1 + 1) ++ ": " ++ (p.2.getD 0 ""), p.1 + 1))

/-- `ws.update_cell(r, c, v)`: overwrite the single cell at 1-based physical
row `r`, 1-based column `c`. -/
def update_cell (sheet : List (List String)) (r c : Nat) (v : String) :
    List (List String) :=
  match sheet[r - 1]? with
  | none => sheet
  | some row => sheet.set (r - 1) (row.set (c - 1) v)

/-- `ws_trans.update(range_name=f"A{r}:E{r}", values=[[nd, type, nc, na, nn]])`:
overwrite the contiguous columns 1-5 of physical row `r`, re-supplying the
row's original `type` (`cr[1]`) as the second value. -/
def update_transaction (sheet : List (List String)) (r : Nat)
    (nd nc na nn : String) : List (List String) :=
  match sheet[r - 1]? with
  | none => sheet
  | some cr =>
    sheet.set (r - 1)
      ([nd, cr.getD 1 "", nc, na, nn] ++ cr.drop 5)

/-- The 💾 更新 handler of the 專案管理 tab: four `update_cell` calls on
physical row `r`, columns 3 (start), 4 (status), 5 (progress), 7 (end). -/
def update_project (sheet : List (List String)) (r : Nat)
    (new_start es ep new_end : String) : List (List String) :=
  update_cell (update_cell (update_cell (update_cell sheet r 3 new_start)
    r 4 es) r 5 ep) r 7 new_end

/-- `ws.delete_rows(r)`: remove the 1-based physical row `r`, shifting the
following rows up. -/
def delete_rows (sheet : List (List String)) (r : Nat) : List (List String) :=
  sheet.take (r - 1) ++ sheet.drop r

/-! ### Theorems -/

/-- **C4**: for any transactions table and any `now`, `m_income`
(resp. `m_expense`) is the sum of `amount` over transactions of type `收入`
(resp. `支出`) whose date shares year and month with `now`; `m_balance` is
their difference; and `total_balance` is the all-time income sum minus the
all-time expense sum over the unfiltered table. -/
theorem C4_month_kpis (df : List Trans) (now : Date) :
    m_income df now = sumAmount (df.filter
      (fun t => decide (t.type = "收入") && inMonth t now)) ∧
    m_expense df now = sumAmount (df.filter
      (fun t => decide (t.type = "支出") && inMonth t now)) ∧
    m_balance df now = m_income df now - m_expense df now ∧
    total_balance df =
      sumAmount (df.filter (fun t => decide (t.type = "收入"))) -
      sumAmount (df.filter (fun t => decide (t.type = "支出"))) := by
  refine ⟨?_, ?_, rfl, ?_⟩ <;>
    cases df with
    | nil => simp [m_income, m_expense, total_balance, sumAmount]
    | cons h t =>
      simp [m_income, m_expense, total_balance, List.filter_filter]

/-- **C7**: per-project profit is the income sum minus the expense sum over
the transactions whose `project_name` equals the project's name exactly;
with zero matching transactions the profit is exactly 0; and each `proj_view`
entry carries exactly these numbers for its project. -/
theorem C7_project_profit (trans : List Trans) (name : String) :
    (p_rev trans name - p_cost trans name =
      sumAmount (trans.filter (fun t =>
        decide (t.type = "收入") && decide (t.project_name = name))) -
      sumAmount (trans.filter (fun t =>
        decide (t.type = "支出") && decide (t.project_name = name)))) ∧
    ((∀ t ∈ trans, t.project_name ≠ name) →
      p_rev trans name - p_cost trans name = 0) ∧
    (∀ projs : List Proj, ∀ v ∈ proj_view projs trans,
      v.profit = p_rev trans v.name - p_cost trans v.name ∧
      v.invested = p_cost trans v.name) := by
  refine ⟨?_, ?_, ?_⟩
  · cases trans with
    | nil => simp [p_rev, p_cost, sumAmount]
    | cons h t => simp [p_rev, p_cost, List.filter_filter]
  · intro h
    have h0 : trans.filter (fun t => decide (t.project_name = name)) = [] := by
      rw [List.filter_eq_nil_iff]
      intro t ht
      simpa using h t ht
    cases trans with
    | nil => simp [p_rev, p_cost, sumAmount]
    | cons hd tl => simp [p_rev, p_cost, h0, sumAmount]
  · intro projs v hv
    simp only [proj_view, List.mem_map] at hv
    obtain ⟨p, _, rfl⟩ := hv
    exact ⟨rfl, rfl⟩

/-- A transactions table with no transaction assigned to project "Z". -/
def c7Trans : List Trans :=
  coerceTransTable [⟨"2024-01-15", "收入", "專案款", "500", "", "Alpha", "t"⟩,
    ⟨"2024-01-16", "支出", "專案款", "200", "", "Alpha", "t"⟩]

/-- Witness for **C7** at a concrete table: project "Z" matches no
transaction and its profit evaluates to 0. -/
theorem C7_project_profit_witness :
    p_rev c7Trans "Z" - p_cost c7Trans "Z" = 0 :=
  (C7_project_profit c7Trans "Z").2.1 (by decide)

/-- **C8**: a project row whose raw `end_date` does not parse gets
`start_date + 30 days` (as typed values: NaT start propagates); a row whose
raw `end_date` parses keeps the stored value. -/
theorem C8_end_date_default (r : RawProj) :
    (toDatetimeCoerce r.end_date = none →
      (coerceProj r).end_date =
        ((coerceProj r).start_date).map (fun d => addDays d 30)) ∧
    (∀ d, toDatetimeCoerce r.end_date = some d →
      (coerceProj r).end_date = some d) := by
  constructor
  · intro h
    simp [coerceProj, h]
  · intro d h
    simp [coerceProj, h]

/-- A raw project row whose `end_date` cell is empty (does not parse). -/
def c8Raw : RawProj := ⟨"Alpha", "1000", "2024-01-20", "進行中", "0", "t", ""⟩

set_option maxRecDepth 4000 in
/-- Witness for **C8**: on a concrete row with unparseable `end_date`, the
typed `end_date` is the typed `start_date` plus 30 days, here 2024-02-19. -/
theorem C8_end_date_default_witness :
    (coerceProj c8Raw).end_date =
      ((coerceProj c8Raw).start_date).map (fun d => addDays d 30) ∧
    (coerceProj c8Raw).end_date = some ⟨2024, 2, 19⟩ :=
  ⟨(C8_end_date_default c8Raw).1 (by decide), by decide⟩

/-- Projects used to refute the profit-ordering claim: "A" listed before
"B". -/
def c2Projs : List Proj :=
  [coerceProj ⟨"A", "0", "2024-01-01", "進行中", "0", "t", "2024-02-01"⟩,
   coerceProj ⟨"B", "0", "2024-01-01", "進行中", "0", "t", "2024-02-01"⟩]

/-- Transactions giving project "A" profit 10 and project "B" profit 0. -/
def c2Trans : List Trans :=
  coerceTransTable [⟨"2024-01-15", "收入", "專案款", "10", "", "A", "t"⟩]

/-- **C2 counterexample**: `proj_view` is emitted in `df_projs.iterrows()`
table order and is not sorted by profit: with project "A" (profit 10) stored
before project "B" (profit 0), adjacent profits are decreasing. -/
theorem C2_counterexample :
    ¬ List.Chain' (fun a b => a.profit ≤ b.profit)
      (proj_view c2Projs c2Trans) := by
  have h : proj_view c2Projs c2Trans =
      [⟨"A", 0, 10⟩, ⟨"B", 0, 0⟩] := by decide
  rw [h]
  simp [List.chain'_cons]

/-- **C2 amended**: the per-project sequence is produced one entry per
project in the projects' stored physical order (it is not re-ranked by
profit): the names of the output are exactly the project names in table
order. -/
theorem C2_amended_table_order (projs : List Proj) (trans : List Trans) :
    (proj_view projs trans).map (fun v => v.name) =
      projs.map (fun p => p.name) := by
  simp [proj_view]

/-- The physical-row values of an `enumerate`-built option dictionary: for
data rows enumerated from index `n+1`, the stored row numbers are
`n+2, n+3, ...`. -/
theorem enumFrom_filter_snd (rows : List (List String)) :
    ∀ n : Nat,
    ((rows.enumFrom (n + 1)).filter (fun p => decide (p.1 > 0))).map
      (fun p : Nat × List String => p.1 + 1) =
      List.range' (n + 2) rows.length := by
  induction rows with
  | nil => intro n; simp [List.enumFrom]
  | cons r rs ih =>
    intro n
    simp only [List.enumFrom_cons, List.filter_cons, List.length_cons]
    have h : decide ((n + 1, r).1 > 0) = true := by simp
    rw [h]
    simp only [if_true, List.map_cons, List.range']
    exact congrArg _ (ih (n + 1))

/-- The row numbers stored in `opts` for a table with header `hd` and data
rows `rows` are `2, 3, ..., rows.length + 1` in order. -/
theorem opts_snd (hd : List String) (rows : List (List String)) :
    (opts (hd :: rows)).map Prod.snd = List.range' 2 rows.length := by
  show (((List.enumFrom 0 (hd :: rows)).filter
      (fun p => decide (p.1 > 0))).map _).map Prod.snd = _
  rw [List.enumFrom_cons, List.map_map]
  have hdrop : (fun p : Nat × List String => decide (p.1 > 0)) (0, hd) =
      false := by simp
  rw [List.filter_cons_of_neg (by simp [hdrop])]
  exact enumFrom_filter_snd rows 0

/-- The row numbers stored in `proj_opts` follow the same scheme. -/
theorem proj_opts_snd (hd : List String) (rows : List (List String)) :
    (proj_opts (hd :: rows)).map Prod.snd = List.range' 2 rows.length := by
  show (((List.enumFrom 0 (hd :: rows)).filter
      (fun p => decide (p.1 > 0))).map _).map Prod.snd = _
  rw [List.enumFrom_cons, List.map_map]
  have hdrop : (fun p : Nat × List String => decide (p.1 > 0)) (0, hd) =
      false := by simp
  rw [List.filter_cons_of_neg (by simp [hdrop])]
  exact enumFrom_filter_snd rows 0

/-- A raw Transactions sheet with a header row and three data rows. -/
def c1Raw : List (List String) :=
  [["date", "type", "category", "amount", "note", "project_name", "created_at"],
   ["2024-01-01", "收入", "專案款", "100", "", "A", "t1"],
   ["2024-01-02", "支出", "薪資", "200", "", "A", "t2"],
   ["2024-01-03", "收入", "專案款", "300", "", "B", "t3"]]

/-- **C1 counterexample**: with a header plus 3 data rows, the record at
1-based logical position 2 is addressed at physical row 3, not row 4 as the
claim's `k + 2` formula states. -/
theorem C1_counterexample :
    ((opts c1Raw).map Prod.snd)[1]? = some 3 ∧
    ¬ ((opts c1Raw).map Prod.snd)[1]? = some 4 := by decide

/-- **C1 amended**: for every table (Transactions or Projects) with the
header at physical row 1, the record at 1-based logical position `k` among
the data rows is addressed for update and delete at physical row `k + 1`
(logical position 2 maps to physical row 3). -/
theorem C1_amended_row_addressing (raw : List (List String)) (k : Nat)
    (h1 : 1 ≤ k) (h2 : k + 1 ≤ raw.length) :
    ((opts raw).map Prod.snd)[k - 1]? = some (k + 1) ∧
    ((proj_opts raw).map Prod.snd)[k - 1]? = some (k + 1) := by
  cases raw with
  | nil => simp at h2
  | cons hd rows =>
    rw [opts_snd, proj_opts_snd]
    have hlt : k - 1 < rows.length := by
      simp only [List.length_cons] at h2
      omega
    constructor <;>
      · rw [List.getElem?_range' _ _ hlt]
        congr 1
        omega

/-- Witness for **C1 amended** at the concrete three-data-row table:
logical position 2 is addressed at physical row 3 in both dictionaries. -/
theorem C1_amended_row_addressing_witness :
    ((opts c1Raw).map Prod.snd)[1]? = some 3 ∧
    ((proj_opts c1Raw).map Prod.snd)[1]? = some 3 :=
  C1_amended_row_addressing c1Raw 2 (by decide) (by decide)

/-- `update_cell` on a present row rewrites exactly that row, setting the
addressed column. -/
theorem update_cell_at (sheet : List (List String)) (r c : Nat) (v : String)
    (row : List String) (h : sheet[r - 1]? = some row) :
    (update_cell sheet r c v)[r - 1]? = some (row.set (c - 1) v) := by
  have hlt : r - 1 < sheet.length := (List.getElem?_eq_some.mp h).1
  simp only [update_cell, h]
  exact List.getElem?_set_eq_of_lt _ hlt

/-- `update_cell` leaves every other physical row untouched. -/
theorem update_cell_other (sheet : List (List String)) (r c : Nat) (v : String)
    (j : Nat) (hj : j ≠ r - 1) :
    (update_cell sheet r c v)[j]? = sheet[j]? := by
  unfold update_cell
  split
  · rfl
  · exact List.getElem?_set_ne (fun he => hj he.symm)

/-- **C9**: updating a transaction at physical row `r` writes only columns
1-5 (new date, the re-supplied original `type`, new category, amount, note):
in the written row, column 2 still equals the old `type` cell, every column
beyond 5 (in particular `project_name` and `created_at`) keeps its old
value, the row keeps its width, and every other physical row of the sheet is
unchanged. -/
theorem C9_update_transaction_frame (sheet : List (List String)) (r : Nat)
    (nd nc na nn : String) (cr : List String)
    (hr : sheet[r - 1]? = some cr) (hlen : 7 ≤ cr.length) :
    ((update_transaction sheet r nd nc na nn).getD (r - 1) [])[0]? = some nd ∧
    ((update_transaction sheet r nd nc na nn).getD (r - 1) [])[2]? = some nc ∧
    ((update_transaction sheet r nd nc na nn).getD (r - 1) [])[3]? = some na ∧
    ((update_transaction sheet r nd nc na nn).getD (r - 1) [])[4]? = some nn ∧
    ((update_transaction sheet r nd nc na nn).getD (r - 1) [])[1]? = cr[1]? ∧
    (∀ c, 5 ≤ c →
      ((update_transaction sheet r nd nc na nn).getD (r - 1) [])[c]? =
        cr[c]?) ∧
    ((update_transaction sheet r nd nc na nn).getD (r - 1) []).length =
      cr.length ∧
    (∀ j, j ≠ r - 1 →
      (update_transaction sheet r nd nc na nn)[j]? = sheet[j]?) := by
  have hlt : r - 1 < sheet.length := (List.getElem?_eq_some.mp hr).1
  have hres : (update_transaction sheet r nd nc na nn)[r - 1]? =
      some ([nd, cr.getD 1 "", nc, na, nn] ++ cr.drop 5) := by
    simp only [update_transaction, hr]
    exact List.getElem?_set_eq_of_lt _ hlt
  have hrow : (update_transaction sheet r nd nc na nn).getD (r - 1) [] =
      [nd, cr.getD 1 "", nc, na, nn] ++ cr.drop 5 := by
    rw [List.getD_eq_getElem?_getD, hres]
    rfl
  rw [hrow]
  refine ⟨by simp, by simp, by simp, by simp, ?_, ?_, ?_, ?_⟩
  · have h1 : 1 < cr.length := by omega
    show some (cr.getD 1 "") = cr[1]?
    rw [List.getD_eq_getElem?_getD, List.getElem?_eq_getElem h1]
    rfl
  · intro c hc
    rw [List.getElem?_append]
    rw [if_neg (by simp; omega)]
    rw [List.getElem?_drop]
    congr 1
    simp
    omega
  · simp [List.length_append, List.length_drop]
    omega
  · intro j hj
    simp only [update_transaction, hr]
    exact List.getElem?_set_ne (fun he => hj he.symm)

/-- A concrete raw Transactions sheet: header plus two 7-column data rows. -/
def c9Sheet : List (List String) :=
  [["date", "type", "category", "amount", "note", "project_name", "created_at"],
   ["2024-01-01", "收入", "專案款", "100", "", "Alpha", "t1"],
   ["2024-01-02", "支出", "薪資", "200", "", "Beta", "t2"]]

/-- Witness for **C9** at physical row 2 of the concrete sheet. -/
theorem C9_update_transaction_frame_witness :
    ((update_transaction c9Sheet 2 "2024-05-05" "房租" "999" "n").getD 1
      [])[0]? = some "2024-05-05" ∧
    ((update_transaction c9Sheet 2 "2024-05-05" "房租" "999" "n").getD 1
      [])[2]? = some "房租" ∧
    ((update_transaction c9Sheet 2 "2024-05-05" "房租" "999" "n").getD 1
      [])[3]? = some "999" ∧
    ((update_transaction c9Sheet 2 "2024-05-05" "房租" "999" "n").getD 1
      [])[4]? = some "n" ∧
    ((update_transaction c9Sheet 2 "2024-05-05" "房租" "999" "n").getD 1
      [])[1]? = (["2024-01-01", "收入", "專案款", "100", "", "Alpha",
        "t1"] : List String)[1]? ∧
    (∀ c, 5 ≤ c →
      ((update_transaction c9Sheet 2 "2024-05-05" "房租" "999" "n").getD 1
        [])[c]? = (["2024-01-01", "收入", "專案款", "100", "", "Alpha",
          "t1"] : List String)[c]?) ∧
    ((update_transaction c9Sheet 2 "2024-05-05" "房租" "999" "n").getD 1
      []).length = (["2024-01-01", "收入", "專案款", "100", "", "Alpha",
        "t1"] : List String).length ∧
    (∀ j, j ≠ 2 - 1 →
      (update_transaction c9Sheet 2 "2024-05-05" "房租" "999" "n")[j]? =
        c9Sheet[j]?) :=
  C9_update_transaction_frame c9Sheet 2 "2024-05-05" "房租" "999" "n"
    ["2024-01-01", "收入", "專案款", "100", "", "Alpha", "t1"]
    (by decide) (by decide)

/-- **C10**: the project update writes exactly the cells in columns 3, 4, 5
and 7 of the addressed physical row; columns 1, 2 and 6 of that row, every
column beyond 7, and every other row of the sheet are unchanged. -/
theorem C10_update_project_frame (sheet : List (List String)) (r : Nat)
    (ns es ep ne : String) (cr : List String)
    (hr : sheet[r - 1]? = some cr) (hlen : 7 ≤ cr.length) :
    ((update_project sheet r ns es ep ne).getD (r - 1) [])[2]? = some ns ∧
    ((update_project sheet r ns es ep ne).getD (r - 1) [])[3]? = some es ∧
    ((update_project sheet r ns es ep ne).getD (r - 1) [])[4]? = some ep ∧
    ((update_project sheet r ns es ep ne).getD (r - 1) [])[6]? = some ne ∧
    ((update_project sheet r ns es ep ne).getD (r - 1) [])[0]? = cr[0]? ∧
    ((update_project sheet r ns es ep ne).getD (r - 1) [])[1]? = cr[1]? ∧
    ((update_project sheet r ns es ep ne).getD (r - 1) [])[5]? = cr[5]? ∧
    (∀ c, 7 ≤ c →
      ((update_project sheet r ns es ep ne).getD (r - 1) [])[c]? = cr[c]?) ∧
    (∀ j, j ≠ r - 1 →
      (update_project sheet r ns es ep ne)[j]? = sheet[j]?) := by
  have h1 := update_cell_at sheet r 3 ns cr hr
  have h2 := update_cell_at _ r 4 es _ h1
  have h3 := update_cell_at _ r 5 ep _ h2
  have h4 := update_cell_at _ r 7 ne _ h3
  have hrow : (update_project sheet r ns es ep ne).getD (r - 1) [] =
      (((cr.set 2 ns).set 3 es).set 4 ep).set 6 ne := by
    rw [List.getD_eq_getElem?_getD]
    rw [show (update_project sheet r ns es ep ne)[r - 1]? =
      some ((((cr.set 2 ns).set 3 es).set 4 ep).set 6 ne) from h4]
    rfl
  rw [hrow]
  refine ⟨?_, ?_, ?_, ?_, ?_, ?_, ?_, ?_, ?_⟩
  · simp [List.getElem?_set, List.length_set, show 2 < cr.length from by omega]
  · simp [List.getElem?_set, List.length_set, show 3 < cr.length from by omega]
  · simp [List.getElem?_set, List.length_set, show 4 < cr.length from by omega]
  · simp [List.getElem?_set, List.length_set, show 6 < cr.length from by omega]
  · simp [List.getElem?_set, List.length_set]
  · simp [List.getElem?_set, List.length_set]
  · simp [List.getElem?_set, List.length_set]
  · intro c hc
    simp [List.getElem?_set, List.length_set, show 6 ≠ c from by omega,
      show 4 ≠ c from by omega, show 3 ≠ c from by omega,
      show 2 ≠ c from by omega]
  · intro j hj
    show (update_cell (update_cell (update_cell (update_cell sheet r 3 ns)
      r 4 es) r 5 ep) r 7 ne)[j]? = sheet[j]?
    rw [update_cell_other _ _ _ _ _ hj, update_cell_other _ _ _ _ _ hj,
      update_cell_other _ _ _ _ _ hj, update_cell_other _ _ _ _ _ hj]

/-- A concrete raw Projects sheet: header plus two 7-column data rows. -/
def c10Sheet : List (List String) :=
  [["name", "total_budget", "start_date", "status", "progress", "created_at",
    "end_date"],
   ["Alpha", "1000", "2024-01-01", "進行中", "10", "t1", "2024-02-01"],
   ["Beta", "2000", "2024-03-01", "暫停", "20", "t2", "2024-04-01"]]

/-- Witness for **C10** at physical row 2 of the concrete sheet. -/
theorem C10_update_project_frame_witness :
    ((update_project c10Sheet 2 "2024-06-01" "結案" "100" "2024-07-01").getD 1
      [])[2]? = some "2024-06-01" ∧
    ((update_project c10Sheet 2 "2024-06-01" "結案" "100" "2024-07-01").getD 1
      [])[3]? = some "結案" ∧
    ((update_project c10Sheet 2 "2024-06-01" "結案" "100" "2024-07-01").getD 1
      [])[4]? = some "100" ∧
    ((update_project c10Sheet 2 "2024-06-01" "結案" "100" "2024-07-01").getD 1
      [])[6]? = some "2024-07-01" ∧
    ((update_project c10Sheet 2 "2024-06-01" "結案" "100" "2024-07-01").getD 1
      [])[0]? = (["Alpha", "1000", "2024-01-01", "進行中", "10", "t1",
        "2024-02-01"] : List String)[0]? ∧
    ((update_project c10Sheet 2 "2024-06-01" "結案" "100" "2024-07-01").getD 1
      [])[1]? = (["Alpha", "1000", "2024-01-01", "進行中", "10", "t1",
        "2024-02-01"] : List String)[1]? ∧
    ((update_project c10Sheet 2 "2024-06-01" "結案" "100" "2024-07-01").getD 1
      [])[5]? = (["Alpha", "1000", "2024-01-01", "進行中", "10", "t1",
        "2024-02-01"] : List String)[5]? ∧
    (∀ c, 7 ≤ c →
      ((update_project c10Sheet 2 "2024-06-01" "結案" "100" "2024-07-01").getD
        1 [])[c]? = (["Alpha", "1000", "2024-01-01", "進行中", "10", "t1",
          "2024-02-01"] : List String)[c]?) ∧
    (∀ j, j ≠ 2 - 1 →
      (update_project c10Sheet 2 "2024-06-01" "結案" "100" "2024-07-01")[j]? =
        c10Sheet[j]?) :=
  C10_update_project_frame c10Sheet 2 "2024-06-01" "結案" "100" "2024-07-01"
    ["Alpha", "1000", "2024-01-01", "進行中", "10", "t1", "2024-02-01"]
    (by decide) (by decide)

/-! ### Structure of the monthly series -/

theorem statsRows_map_month (df : List Trans) :
    ∀ (ks : List String) (acc : Int),
    (statsRows df acc ks).map (fun r => r.month) = ks := by
  intro ks
  induction ks with
  | nil => intro acc; simp [statsRows]
  | cons k ks ih => intro acc; simp [statsRows, ih]

theorem statsRows_map_net (df : List Trans) :
    ∀ (ks : List String) (acc : Int),
    (statsRows df acc ks).map (fun r => r.net) =
      ks.map (fun k => monthIncome df k - monthExpense df k) := by
  intro ks
  induction ks with
  | nil => intro acc; simp [statsRows]
  | cons k ks ih => intro acc; simp [statsRows, ih]

theorem statsRows_map_cumulative (df : List Trans) :
    ∀ (ks : List String) (acc : Int),
    (statsRows df acc ks).map (fun r => r.cumulative) =
      runningSums acc (ks.map (fun k => monthIncome df k - monthExpense df k)) := by
  intro ks
  induction ks with
  | nil => intro acc; simp [statsRows, runningSums]
  | cons k ks ih => intro acc; simp [statsRows, runningSums, ih]

theorem statsRows_mem (df : List Trans) :
    ∀ (ks : List String) (acc : Int), ∀ row ∈ statsRows df acc ks,
    row.income = monthIncome df row.month ∧
    row.expense = monthExpense df row.month ∧
    row.net = row.income - row.expense := by
  intro ks
  induction ks with
  | nil => intro acc row hrow; simp [statsRows] at hrow
  | cons k ks ih =>
    intro acc row hrow
    rw [statsRows] at hrow
    rcases List.mem_cons.mp hrow with hrow1 | hrow1
    · subst hrow1; exact ⟨rfl, rfl, rfl⟩
    · exact ih _ row hrow1

theorem mem_monthKeysSorted (df : List Trans) (k : String) :
    k ∈ monthKeysSorted df ↔ ∃ t ∈ df, keyOf t = some k := by
  unfold monthKeysSorted
  rw [(List.perm_insertionSort _ _).mem_iff, List.mem_dedup, List.mem_filterMap]

theorem nodup_monthKeysSorted (df : List Trans) : (monthKeysSorted df).Nodup :=
  (List.perm_insertionSort _ _).symm.nodup (List.nodup_dedup _)

theorem pairwise_lt_monthKeysSorted (df : List Trans) :
    (monthKeysSorted df).Pairwise (· < ·) := by
  have hs : (monthKeysSorted df).Pairwise (· ≤ ·) :=
    List.sorted_insertionSort _ _
  have hn : (monthKeysSorted df).Pairwise (· ≠ ·) := nodup_monthKeysSorted df
  exact (hs.and hn).imp (fun h => lt_of_le_of_ne h.1 h.2)

/-- **C3**: the monthly series has exactly one row per distinct zero-padded
`YYYY-MM` key of a non-NaT-dated transaction, in strictly ascending key
order; each row's income (resp. expense) is the sum over that month's
transactions of the matching type (0 if the type is absent that month),
`net` is their difference, and the cumulative column is the running sum of
`net` from 0. -/
theorem C3_monthly_series (df : List Trans) :
    (∀ k, k ∈ (monthly_stats df).map (fun r => r.month) ↔
      ∃ t ∈ df, ∃ d, t.date = some d ∧ monthKey d = k) ∧
    ((monthly_stats df).map (fun r => r.month)).Pairwise (· < ·) ∧
    (∀ row ∈ monthly_stats df,
      row.income = sumAmount (df.filter (fun t =>
        decide (t.type = "收入") && decide (keyOf t = some row.month))) ∧
      row.expense = sumAmount (df.filter (fun t =>
        decide (t.type = "支出") && decide (keyOf t = some row.month))) ∧
      row.net = row.income - row.expense) ∧
    (monthly_stats df).map (fun r => r.cumulative) =
      runningSums 0 ((monthly_stats df).map (fun r => r.net)) := by
  refine ⟨?_, ?_, ?_, ?_⟩
  · intro k
    rw [monthly_stats, statsRows_map_month, mem_monthKeysSorted]
    simp [keyOf, Option.map_eq_some']
  · rw [monthly_stats, statsRows_map_month]
    exact pairwise_lt_monthKeysSorted df
  · intro row hrow
    obtain ⟨hi, he, hn⟩ := statsRows_mem df _ _ row hrow
    refine ⟨?_, ?_, hn⟩
    · rw [hi, monthIncome, List.filter_filter]
    · rw [he, monthExpense, List.filter_filter]
  · rw [monthly_stats, statsRows_map_cumulative, statsRows_map_net]

/-! ### The monthly series partitions the all-time totals -/

theorem sum_map_sub {α : Type} (l : List α) (f g : α → Int) :
    (l.map (fun a => f a - g a)).sum = (l.map f).sum - (l.map g).sum := by
  induction l with
  | nil => simp
  | cons hd tl ih => simp [ih]; ring

theorem total_balance_eq (df : List Trans) :
    total_balance df =
      sumAmount (df.filter (fun t => decide (t.type = "收入"))) -
      sumAmount (df.filter (fun t => decide (t.type = "支出"))) := by
  cases df <;> simp [total_balance, sumAmount]

theorem sumAmount_filter_or (l : List Trans) (p q : Trans → Bool)
    (hpq : ∀ t, ¬(p t = true ∧ q t = true)) :
    sumAmount (l.filter (fun t => p t || q t)) =
      sumAmount (l.filter p) + sumAmount (l.filter q) := by
  induction l with
  | nil => simp [sumAmount]
  | cons hd tl ih =>
    cases hp : p hd with
    | false =>
      cases hq : q hd with
      | false => simpa [List.filter_cons, hp, hq] using ih
      | true =>
        simp [List.filter_cons, hp, hq, sumAmount] at ih ⊢
        omega
    | true =>
      cases hq : q hd with
      | false =>
        simp [List.filter_cons, hp, hq, sumAmount] at ih ⊢
        omega
      | true => exact absurd ⟨hp, hq⟩ (hpq hd)

theorem sumAmount_groups (l : List Trans) :
    ∀ K : List String, K.Nodup →
    (K.map (fun k =>
      sumAmount (l.filter (fun t => decide (keyOf t = some k))))).sum =
      sumAmount (l.filter (fun t => decide (∃ k ∈ K, keyOf t = some k))) := by
  intro K
  induction K with
  | nil => simp [sumAmount]
  | cons k K' ih =>
    intro hnd
    have hsplit : l.filter (fun t => decide (∃ x ∈ k :: K', keyOf t = some x)) =
        l.filter (fun t => decide (keyOf t = some k) ||
          decide (∃ x ∈ K', keyOf t = some x)) := by
      apply List.filter_congr
      intro t _
      simp [List.mem_cons, decide_eq_true_eq]
    rw [List.map_cons, List.sum_cons, ih (List.nodup_cons.mp hnd).2, hsplit,
      sumAmount_filter_or]
    intro t ⟨h1, h2⟩
    simp only [decide_eq_true_eq] at h1 h2
    obtain ⟨x, hx, he⟩ := h2
    rw [h1] at he
    exact (List.nodup_cons.mp hnd).1 (Option.some_injective _ he ▸ hx)

theorem runningSums_getLast :
    ∀ (xs : List Int), xs ≠ [] → ∀ acc : Int,
    (runningSums acc xs).getLast? = some (acc + xs.sum) := by
  intro xs
  induction xs with
  | nil => intro h; exact absurd rfl h
  | cons x tl ih =>
    intro _ acc
    cases tl with
    | nil => simp [runningSums]
    | cons y ys =>
      show ((acc + x) :: runningSums (acc + x) (y :: ys)).getLast? = _
      rw [show runningSums (acc + x) (y :: ys) =
        (acc + x + y) :: runningSums (acc + x + y) ys from rfl]
      rw [List.getLast?_cons_cons]
      rw [show (acc + x + y) :: runningSums (acc + x + y) ys =
        runningSums (acc + x) (y :: ys) from rfl]
      rw [ih (by simp) (acc + x)]
      congr 1
      simp
      ring

theorem filter_swap (l : List Trans) (p q : Trans → Bool) :
    (l.filter p).filter q = (l.filter q).filter p := by
  rw [List.filter_filter, List.filter_filter]
  exact List.filter_congr (fun t _ => Bool.and_comm (q t) (p t))

/-- **C5**: when every transaction date is non-NaT, the sum of the monthly
series' `net` column equals `total_balance`; hence the cumulative balance at
the last (greatest) month key equals `total_balance`; and recomputing the
series from the same table yields the identical series. -/
theorem C5_series_totals (df : List Trans) (h : ∀ t ∈ df, t.date ≠ none) :
    ((monthly_stats df).map (fun r => r.net)).sum = total_balance df ∧
    (df ≠ [] →
      ((monthly_stats df).map (fun r => r.cumulative)).getLast? =
        some (total_balance df)) ∧
    monthly_stats df = monthly_stats df := by
  have hcover : ∀ p : Trans → Bool,
      (df.filter p).filter (fun t =>
        decide (∃ k ∈ monthKeysSorted df, keyOf t = some k)) = df.filter p := by
    intro p
    rw [List.filter_eq_self]
    intro t ht
    have htdf := List.mem_of_mem_filter ht
    cases hdate : t.date with
    | none => exact absurd hdate (h t htdf)
    | some d =>
      simp only [decide_eq_true_eq]
      exact ⟨monthKey d,
        (mem_monthKeysSorted df _).mpr ⟨t, htdf, by simp [keyOf, hdate]⟩,
        by simp [keyOf, hdate]⟩
  have hinc : ((monthKeysSorted df).map (fun k => monthIncome df k)).sum =
      sumAmount (df.filter (fun t => decide (t.type = "收入"))) := by
    rw [List.map_congr_left (fun k _ => by
      rw [monthIncome, filter_swap] :
      ∀ k ∈ monthKeysSorted df, monthIncome df k =
        sumAmount ((df.filter (fun t => decide (t.type = "收入"))).filter
          (fun t => decide (keyOf t = some k))))]
    rw [sumAmount_groups _ _ (nodup_monthKeysSorted df), hcover]
  have hexp : ((monthKeysSorted df).map (fun k => monthExpense df k)).sum =
      sumAmount (df.filter (fun t => decide (t.type = "支出"))) := by
    rw [List.map_congr_left (fun k _ => by
      rw [monthExpense, filter_swap] :
      ∀ k ∈ monthKeysSorted df, monthExpense df k =
        sumAmount ((df.filter (fun t => decide (t.type = "支出"))).filter
          (fun t => decide (keyOf t = some k))))]
    rw [sumAmount_groups _ _ (nodup_monthKeysSorted df), hcover]
  have hsum : ((monthKeysSorted df).map
      (fun k => monthIncome df k - monthExpense df k)).sum =
      total_balance df := by
    rw [sum_map_sub, hinc, hexp, total_balance_eq]
  refine ⟨by rw [monthly_stats, statsRows_map_net, hsum], ?_, rfl⟩
  intro hne
  rw [monthly_stats, statsRows_map_cumulative]
  have hK : monthKeysSorted df ≠ [] := by
    cases df with
    | nil => exact absurd rfl hne
    | cons t ts =>
      cases hdate : t.date with
      | none => exact absurd hdate (h t (List.mem_cons_self t ts))
      | some d =>
        exact List.ne_nil_of_mem ((mem_monthKeysSorted (t :: ts)
          (monthKey d)).mpr ⟨t, List.mem_cons_self t ts,
            by simp [keyOf, hdate]⟩)
  have hmapne : (monthKeysSorted df).map
      (fun k => monthIncome df k - monthExpense df k) ≠ [] := by
    simpa [List.map_eq_nil_iff] using hK
  rw [runningSums_getLast _ hmapne 0, zero_add, hsum]

/-- The spec's two-month scenario table: expense 100 in 2024-01, income 300
in 2024-02, all dates parseable. -/
def c5Trans : List Trans :=
  coerceTransTable [⟨"2024-01-15", "支出", "專案款", "100", "", "A", "t"⟩,
    ⟨"2024-02-01", "收入", "專案款", "300", "", "A", "t"⟩]

/-- Witness for **C5** on the concrete all-dates-parseable table. -/
theorem C5_series_totals_witness :
    ((monthly_stats c5Trans).map (fun r => r.net)).sum =
      total_balance c5Trans ∧
    (c5Trans ≠ [] →
      ((monthly_stats c5Trans).map (fun r => r.cumulative)).getLast? =
        some (total_balance c5Trans)) ∧
    monthly_stats c5Trans = monthly_stats c5Trans :=
  C5_series_totals c5Trans (by decide)

/-- **C6**: coercion is total and silent — a non-numeric amount string such
as "abc" coerces to 0 and an unparseable date string such as "not-a-date"
coerces to null; a null-dated transaction is excluded from the current-month
mask and from every month bucket of the series, while its coerced amount
still moves `total_balance` by the type-determined sign. -/
theorem C6_coercion_defaults (rt : RawTrans) (t : Trans) (df : List Trans)
    (now : Date) (k : String) :
    toNumericCoerce "abc" = none ∧
    (rt.amount = "abc" → (coerceTrans rt).amount = 0) ∧
    toDatetimeCoerce "not-a-date" = none ∧
    (rt.date = "not-a-date" → (coerceTrans rt).date = none) ∧
    (t.date = none → inMonth t now = false) ∧
    (t.date = none → monthIncome (t :: df) k = monthIncome df k ∧
      monthExpense (t :: df) k = monthExpense df k) ∧
    (t.type = "收入" →
      total_balance (t :: df) = total_balance df + t.amount) ∧
    (t.type = "支出" →
      total_balance (t :: df) = total_balance df - t.amount) := by
  have habc : toNumericCoerce "abc" = none := by decide
  have hnad : toDatetimeCoerce "not-a-date" = none := by decide
  refine ⟨habc, ?_, hnad, ?_, ?_, ?_, ?_, ?_⟩
  · intro h
    simp [coerceTrans, h, habc]
  · intro h
    simp [coerceTrans, h, hnad]
  · intro h
    simp [inMonth, h]
  · intro h
    constructor <;>
      simp [monthIncome, monthExpense, List.filter_cons, keyOf, h]
  · intro h
    rw [total_balance_eq, total_balance_eq]
    have hne : ¬ t.type = "支出" := by rw [h]; decide
    simp [List.filter_cons, h, hne, sumAmount]
    ring
  · intro h
    rw [total_balance_eq, total_balance_eq]
    have hne : ¬ t.type = "收入" := by rw [h]; decide
    simp [List.filter_cons, h, hne, sumAmount]
    ring

/-- A raw transaction with non-numeric amount and unparseable date. -/
def c6Raw : RawTrans := ⟨"not-a-date", "收入", "雜支", "abc", "", "A", "t"⟩

/-- A typed null-dated income transaction of amount 7. -/
def c6T : Trans := ⟨none, "收入", "專案款", 7, "", "A", "t"⟩

/-- Witness for **C6**: on concrete inputs, "abc" coerces to amount 0,
"not-a-date" coerces to a null date, the null-dated transaction joins no
month bucket of the concrete table, yet shifts `total_balance` by +7. -/
theorem C6_coercion_defaults_witness :
    (coerceTrans c6Raw).amount = 0 ∧
    (coerceTrans c6Raw).date = none ∧
    inMonth c6T ⟨2024, 1, 31⟩ = false ∧
    (monthIncome (c6T :: c5Trans) "2024-01" = monthIncome c5Trans "2024-01" ∧
      monthExpense (c6T :: c5Trans) "2024-01" =
        monthExpense c5Trans "2024-01") ∧
    total_balance (c6T :: c5Trans) = total_balance c5Trans + c6T.amount :=
  ⟨(C6_coercion_defaults c6Raw c6T c5Trans ⟨2024, 1, 31⟩ "2024-01").2.1 rfl,
   (C6_coercion_defaults c6Raw c6T c5Trans ⟨2024, 1, 31⟩ "2024-01").2.2.2.1 rfl,
   (C6_coercion_defaults c6Raw c6T c5Trans ⟨2024, 1, 31⟩
     "2024-01").2.2.2.2.1 rfl,
   (C6_coercion_defaults c6Raw c6T c5Trans ⟨2024, 1, 31⟩
     "2024-01").2.2.2.2.2.1 rfl,
   (C6_coercion_defaults c6Raw c6T c5Trans ⟨2024, 1, 31⟩
     "2024-01").2.2.2.2.2.2.1 rfl⟩

end ERP
